import Mathlib

/-!
Verification development for `backend/simple_server.py` (PolyOracle agent API).

The Python source is shallowly embedded: JSON-like Python runtime values become
the inductive `PyVal`; Python floats are modelled as `Rat` (no claim here
depends on binary floating-point rounding, only on structural behaviour and on
`str()` of simple literals); Python dicts are association lists with unique
keys (a Python dict can never hold a duplicate key); exceptions become
`Except`/`Option` results.  External collaborators (the `json` standard
library's `loads`, the trading backend, the agent graph) are parameters of the
embedded functions, exactly as they are opaque collaborators of the source.
-/

set_option autoImplicit false
set_option maxRecDepth 8000

namespace SimpleServer

/-- A JSON-like Python runtime value: `None`, `bool`, `int`, `float`
(modelled as `Rat`), `str`, `list`, `dict` (association list with unique,
string keys — mirroring a Python dict produced from JSON). -/
inductive PyVal where
  | none
  | bool (b : Bool)
  | int (n : Int)
  | float (q : Rat)
  | str (s : String)
  | list (xs : List PyVal)
  | dict (fs : List (String × PyVal))

/-- `d.get(k)` without a default: first (hence only) binding for `k`. -/
def dictFind (fs : List (String × PyVal)) (k : String) : Option PyVal :=
  (fs.find? (fun kv => kv.1 == k)).map (fun kv => kv.2)

/-- `d.get(k, default)`. -/
def dictGetD (fs : List (String × PyVal)) (k : String) (d : PyVal) : PyVal :=
  (dictFind fs k).getD d

/-- `k in d` for a Python dict. -/
def hasKey (fs : List (String × PyVal)) (k : String) : Bool :=
  (dictFind fs k).isSome

/-- Python truthiness: `None`, `False`, `0`, `0.0`, `""`, `[]`, `\x7b\x7d` are falsy. -/
def pyTruthy : PyVal → Bool
  | .none => false
  | .bool b => b
  | .int n => n != 0
  | .float q => q != 0
  | .str s => s.length != 0
  | .list xs => !xs.isEmpty
  | .dict fs => !fs.isEmpty

/-- Python `a or b`: `a` when truthy, else `b`. -/
def pyOr (a b : PyVal) : PyVal :=
  if pyTruthy a then a else b

/-- Python `s.startswith(pat)`. -/
def pyStartsWith (s pat : String) : Bool :=
  pat.toList.isPrefixOf s.toList

/-- Digits of a decimal numeral to a natural number. -/
def digitsToNat (cs : List Char) : Nat :=
  cs.foldl (fun n c => n * 10 + (c.toNat - 48)) 0

/-- Unsigned part of a Python float literal: `digits`, `digits.digits`,
`.digits` or `digits.` (models the common literal forms accepted by the
standard library `float()`; exponents and `inf`/`nan` are not modelled —
no claim exercises them). -/
def parseUnsignedFloat (s : String) : Option Rat :=
  match s.splitOn "." with
  | [a] =>
    if a.length > 0 ∧ a.toList.all Char.isDigit then
      some (digitsToNat a.toList)
    else Option.none
  | [a, b] =>
    if (a.length > 0 ∨ b.length > 0) ∧ a.toList.all Char.isDigit ∧ b.toList.all Char.isDigit then
      some ((digitsToNat a.toList : Rat) + (digitsToNat b.toList : Rat) / ((10 : Rat) ^ b.length))
    else Option.none
  | _ => Option.none

/-- The string part of Python `float(s)`: optional surrounding whitespace and
sign, then a decimal literal. -/
def parsePyFloat (s0 : String) : Option Rat :=
  let s := s0.trim
  if pyStartsWith s "-" then (parseUnsignedFloat (s.drop 1)).map (fun q => -q)
  else if pyStartsWith s "+" then parseUnsignedFloat (s.drop 1)
  else parseUnsignedFloat s

/-- The builtin `float(x)` (standard library collaborator): numbers and bools
convert, strings are parsed, everything else raises `TypeError`. -/
def pyFloat : PyVal → Except String Rat
  | .int n => .ok (n : Rat)
  | .float q => .ok q
  | .bool b => .ok (if b then 1 else 0)
  | .str s =>
    match parsePyFloat s with
    | some q => .ok q
    | Option.none => .error "ValueError: could not convert string to float"
  | _ => .error "TypeError: float() argument must be a string or a real number"

/-- Left-pad a numeral string with zeros to length `n`. -/
def natPadLeft (s : String) (n : Nat) : String :=
  if s.length ≥ n then s else String.mk (List.replicate (n - s.length) '0') ++ s

/-- Drop trailing zeros of a fractional part, keeping at least one digit. -/
def trimZeros (s : String) : String :=
  let l := (s.toList.reverse.dropWhile (fun c => c == '0')).reverse
  if l.isEmpty then "0" else String.mk l

/-- Python `str()`/`repr()` of a float: integral values print with a trailing
`.0` (e.g. `str(5.0) = "5.0"`), other representable values as a decimal. -/
def pyFloatStr (q : Rat) : String :=
  let sign := if q.num < 0 then "-" else ""
  let n := q.num.natAbs
  if q.den = 1 then sign ++ toString n ++ ".0"
  else
    match (List.range 18).find? (fun k => 10 ^ (k + 1) % q.den = 0) with
    | some k =>
      let m := 10 ^ (k + 1)
      let scaled := n * (m / q.den)
      sign ++ toString (scaled / m) ++ "." ++ trimZeros (natPadLeft (toString (scaled % m)) (k + 1))
    | Option.none => sign ++ toString n ++ "/" ++ toString q.den

mutual

/-- Python `repr()` (used by `str()` on the elements of containers). -/
def pyRepr : PyVal → String
  | .none => "None"
  | .bool b => if b then "True" else "False"
  | .int n => toString n
  | .float q => pyFloatStr q
  | .str s => "\x27" ++ s ++ "\x27"
  | .list xs => "[" ++ pyReprList xs ++ "]"
  | .dict fs => "\x7b" ++ pyReprFields fs ++ "\x7d"

/-- Comma-separated reprs of list elements. -/
def pyReprList : List PyVal → String
  | [] => ""
  | x :: xs => pyRepr x ++ (if xs.isEmpty then "" else ", " ++ pyReprList xs)

/-- Comma-separated `key: value` reprs of dict entries. -/
def pyReprFields : List (String × PyVal) → String
  | [] => ""
  | (k, v) :: fs =>
    "\x27" ++ k ++ "\x27: " ++ pyRepr v ++ (if fs.isEmpty then "" else ", " ++ pyReprFields fs)

end

/-- Python `str()`: identity on strings, `repr`-like elsewhere. -/
def pyStr : PyVal → String
  | .str s => s
  | v => pyRepr v

/-- JSON escaping of one character, as `json.dumps` performs it on the
characters that occur in this development. -/
def jsonEscapeChar (c : Char) : String :=
  if c = '"' then "\\\""
  else if c = '\\' then "\\\\"
  else if c = '\n' then "\\n"
  else if c = '\t' then "\\t"
  else if c = '\r' then "\\r"
  else String.mk [c]

/-- JSON string quoting. -/
def jsonQuote (s : String) : String :=
  "\"" ++ String.join (s.toList.map jsonEscapeChar) ++ "\""

mutual

/-- `json.dumps` with its default separators (`", "` and `": "`), the exact
serializer the server applies to every stream envelope. -/
def pyJsonDumps : PyVal → String
  | .none => "null"
  | .bool b => if b then "true" else "false"
  | .int n => toString n
  | .float q => pyFloatStr q
  | .str s => jsonQuote s
  | .list xs => "[" ++ pyJsonDumpsList xs ++ "]"
  | .dict fs => "\x7b" ++ pyJsonDumpsFields fs ++ "\x7d"

/-- Serialization of the elements of a JSON array. -/
def pyJsonDumpsList : List PyVal → String
  | [] => ""
  | x :: xs => pyJsonDumps x ++ (if xs.isEmpty then "" else ", " ++ pyJsonDumpsList xs)

/-- Serialization of the entries of a JSON object. -/
def pyJsonDumpsFields : List (String × PyVal) → String
  | [] => ""
  | (k, v) :: fs =>
    jsonQuote k ++ ": " ++ pyJsonDumps v ++ (if fs.isEmpty then "" else ", " ++ pyJsonDumpsFields fs)

end

/-- `TradeExecutionRequest` (lines 196-203): the validated input of
`/execute-trade`. -/
structure TradeExecutionRequest where
  market_id : String
  token_id : String
  side : String
  outcome : String
  size : Rat
  reason : String
  confidence : Rat

/-- The shape of one `/execute-trade` response: the handler always returns a
dict with a boolean `success`, a `message` string, and a subset of the other
keys; an `Option` field is `some` exactly when the corresponding key is
present in the returned dict. -/
structure TradeResponse where
  success : Bool
  orderID : Option PyVal
  takingAmount : Option String
  makingAmount : Option String
  status : Option PyVal
  transactionsHashes : Option PyVal
  errorMsg : Option PyVal
  message : String

/-- What one invocation of the trading backend
(`poly_client.execute_market_order`, an external collaborator) did: returned a
value, or raised an exception whose `str()` is the given message. -/
inductive BackendOutcome where
  | ok (result : PyVal)
  | fault (msg : String)

/-- Lines 259-276: the branch of `execute_trade` handling a dict result
(reached directly for a dict, or after JSON-parsing a string result). -/
def dictResult (fs : List (String × PyVal)) (req : TradeExecutionRequest) (now : Int) :
    TradeResponse :=
  if pyTruthy (dictGetD fs "success" (.bool true)) then
    { success := true
      orderID := some (pyOr (dictGetD fs "orderID" .none)
        (pyOr (dictGetD fs "order_id" .none) (.str (toString now))))
      takingAmount := some (pyStr (dictGetD fs "takingAmount" (.float req.size)))
      makingAmount := some (pyStr (dictGetD fs "makingAmount" (.int 0)))
      status := some (dictGetD fs "status" (.str "completed"))
      transactionsHashes := some (dictGetD fs "transactionsHashes" (.list []))
      errorMsg := Option.none
      message := "Trade executed successfully" }
  else
    { success := false
      orderID := Option.none
      takingAmount := Option.none
      makingAmount := Option.none
      status := Option.none
      transactionsHashes := Option.none
      errorMsg := some (dictGetD fs "errorMsg" (.str "Trade execution failed"))
      message := "Trade failed: " ++ pyStr (dictGetD fs "errorMsg" (.str "Unknown error")) }

/-- Lines 279-287: the fallback for result shapes that are neither a string
nor (after optional JSON parsing) a dict. -/
def fallbackResult (req : TradeExecutionRequest) (now : Int) : TradeResponse :=
  { success := true
    orderID := some (.str ("order_" ++ toString now))
    takingAmount := some (pyFloatStr req.size)
    makingAmount := some "0"
    status := some (.str "completed")
    transactionsHashes := some (.list [])
    errorMsg := Option.none
    message := "Trade executed successfully" }

/-- Lines 205-295: the `/execute-trade` handler.  `jsonLoads` is the standard
library `json.loads` on strings (`Option.none` = it raised), `backend` is what the
trading-backend call did, `now` is `int(time.time())`. -/
def execute_trade (jsonLoads : String → Option PyVal) (req : TradeExecutionRequest)
    (backend : BackendOutcome) (now : Int) : TradeResponse :=
  match backend with
  | .fault e =>
    { success := false
      orderID := Option.none
      takingAmount := Option.none
      makingAmount := Option.none
      status := Option.none
      transactionsHashes := Option.none
      errorMsg := some (.str e)
      message := "Trade execution failed: " ++ e }
  | .ok result =>
    match result with
    | .str s =>
      if pyStartsWith s "mock_market_order_id_" then
        { success := true
          orderID := some (.str s)
          takingAmount := some (pyFloatStr req.size)
          makingAmount := some "0"
          status := some (.str "mock_execution")
          transactionsHashes := some (.list [])
          errorMsg := Option.none
          message := "Trade executed successfully (mock mode)" }
      else
        match jsonLoads s with
        | some (.dict fs) => dictResult fs req now
        | some _ => fallbackResult req now
        | Option.none =>
          { success := true
            orderID := some (.str s)
            takingAmount := some (pyFloatStr req.size)
            makingAmount := some "0"
            status := some (.str "completed")
            transactionsHashes := some (.list [])
            errorMsg := Option.none
            message := "Trade executed successfully" }
    | .dict fs => dictResult fs req now
    | _ => fallbackResult req now

/-- The canonical `TradeResult` invariant of the spec: success responses carry
`orderID`, `takingAmount`, `makingAmount`, `status`, `transactionsHashes` (and
`message`, which every `TradeResponse` carries by construction) and no
`errorMsg`; failure responses carry `errorMsg` (and `message`) and omit all
success-only fields. -/
def canonicalTR (r : TradeResponse) : Prop :=
  (r.success = true →
    r.orderID.isSome ∧ r.takingAmount.isSome ∧ r.makingAmount.isSome ∧
    r.status.isSome ∧ r.transactionsHashes.isSome ∧ r.errorMsg = Option.none) ∧
  (r.success = false →
    r.errorMsg.isSome ∧ r.orderID = Option.none ∧ r.takingAmount = Option.none ∧
    r.makingAmount = Option.none ∧ r.status = Option.none ∧
    r.transactionsHashes = Option.none)

/-- Discriminator for `isinstance(x, dict)`. -/
def isDict : PyVal → Bool
  | .dict _ => true
  | _ => false

/-- `Token` as used by the stream path.
Modelled from the spec: the class itself lives in `polyoracle.state`, which is
not under `src/`; per the spec it is
`\x7btoken_id: string, outcome: string, price: float\x7d`. -/
structure Token where
  token_id : String
  outcome : String
  price : Rat

/-- Constructing a `Token` from keyword arguments.
Modelled from the spec: `polyoracle.state` is not under `src/`; per the spec
`token_id` and `outcome` are string fields (a non-string argument fails
validation), and `price` is already a float at the call site
(`simple_server.py` line 138 converts it first). -/
def TokenMk (tid outc : PyVal) (price : Rat) : Except String Token :=
  match tid, outc with
  | .str a, .str b => .ok ⟨a, b, price⟩
  | _, _ => .error "ValidationError"

/-- Lines 135-139: coercion of one raw token object.  `token_data.get` never
raises on a dict; `float(...)` raises on a non-convertible price, and that
exception propagates out of the coercion (to the stream's `except` handler). -/
def coerceToken (token_data : PyVal) : Except String Token :=
  match token_data with
  | .dict fs =>
    match pyFloat (dictGetD fs "price" (.float 0)) with
    | .error e => .error e
    | .ok q => TokenMk (dictGetD fs "token_id" (.str "")) (dictGetD fs "outcome" (.str "")) q
  | _ => .error "AttributeError"

/-- Lines 133-140: the token-conversion loop; the first raising coercion
aborts the loop with its exception. -/
def coerceTokens : List PyVal → Except String (List Token)
  | [] => .ok []
  | td :: rest => do
    let t ← coerceToken td
    let ts ← coerceTokens rest
    .ok (t :: ts)

/-- `AgentRequest` (lines 41-44): the validated stream-run request
(the spec's `RunRequest`).  Token objects are kept as the raw dicts pydantic
validated them to be (`list[Dict[str, Any]]`). -/
structure AgentRequest where
  market_id : String
  tokens : List PyVal
  from_js : Bool

/-- `AgentRequest(**data)` validation (pydantic): `market_id` a required
string, `tokens` a required list of dicts, `from_js` an optional bool
defaulting to `true`; extra keys are ignored.  `Option.none` = `ValidationError`. -/
def parseAgentRequest (v : PyVal) : Option AgentRequest :=
  match v with
  | .dict fs =>
    match dictFind fs "market_id", dictFind fs "tokens" with
    | some (.str m), some (.list ts) =>
      if ts.all (fun t => match t with | .dict _ => true | _ => false) then
        match dictFind fs "from_js" with
        | Option.none => some ⟨m, ts, true⟩
        | some (.bool b) => some ⟨m, ts, b⟩
        | some _ => Option.none
      else Option.none
    | _, _ => Option.none
  | _ => Option.none

mutual

/-- Lines 112-125: `serialize_for_json`.  On the `PyVal` embedding of agent
events (opaque mapping/sequence/scalar trees, per the spec) the pydantic
`model_dump` case is vacuous; dicts and lists are rebuilt recursively and
scalars pass through. -/
def serialize_for_json : PyVal → PyVal
  | .dict fs => .dict (serializeFields fs)
  | .list xs => .list (serializeItems xs)
  | v => v

/-- Recursive serialization of list items. -/
def serializeItems : List PyVal → List PyVal
  | [] => []
  | x :: xs => serialize_for_json x :: serializeItems xs

/-- Recursive serialization of dict values. -/
def serializeFields : List (String × PyVal) → List (String × PyVal)
  | [] => []
  | (k, v) :: fs => (k, serialize_for_json v) :: serializeFields fs

end

/-- Lines 159-162: the envelope wrapped around one agent event. -/
def updatesEnvelope (ev : PyVal) : PyVal :=
  .dict [("event", .str "updates"), ("data", serialize_for_json ev)]

/-- Lines 171-174: the terminal error envelope. -/
def errorEnvelope (m : String) : PyVal :=
  .dict [("event", .str "error"), ("data", .dict [("error", .str m)])]

/-- Lines 164 and 175: one SSE frame. -/
def sseFrame (env : PyVal) : String :=
  "data: " ++ pyJsonDumps env ++ "\n\n"

/-- Lines 127-175, envelope level: the sequence of envelopes the generator
produces.  The agent graph is the external collaborator: `events` are the
values its `astream` yielded and `fault` is the exception (if any) it raised
after them — a fault in `create_graph()` or in the graph itself is a `fault`
with the corresponding prefix of `events` (possibly empty).  Token coercion
happens inside the generator's `try`, so its exception becomes the single
error envelope. -/
def agentStreamEnvelopes (request : AgentRequest) (events : List PyVal)
    (fault : Option String) : List PyVal :=
  match coerceTokens request.tokens with
  | .error e => [errorEnvelope e]
  | .ok _ =>
    match fault with
    | Option.none => events.map updatesEnvelope
    | some m => events.map updatesEnvelope ++ [errorEnvelope m]

/-- Lines 127-175: the byte frames written to the wire, one per envelope. -/
def generate_agent_stream (request : AgentRequest) (events : List PyVal)
    (fault : Option String) : List String :=
  (agentStreamEnvelopes request events fault).map sseFrame

/-- One step of strict UTF-8 decoding of a byte list (the standard library
codec used by `raw_body.decode('utf-8')`): rejects stray continuations,
overlong forms, surrogates and out-of-range code points. -/
def utf8DecodeList : List Nat → Option (List Char)
  | [] => some []
  | b :: bs =>
    if b < 0x80 then
      (utf8DecodeList bs).map (fun cs => Char.ofNat b :: cs)
    else if b < 0xC2 then Option.none
    else if b < 0xE0 then
      match bs with
      | b2 :: rest =>
        if 0x80 ≤ b2 ∧ b2 < 0xC0 then
          (utf8DecodeList rest).map (fun cs => Char.ofNat ((b - 0xC0) * 0x40 + (b2 - 0x80)) :: cs)
        else Option.none
      | [] => Option.none
    else if b < 0xF0 then
      match bs with
      | b2 :: b3 :: rest =>
        if 0x80 ≤ b2 ∧ b2 < 0xC0 ∧ 0x80 ≤ b3 ∧ b3 < 0xC0 then
          let cp := (b - 0xE0) * 0x1000 + (b2 - 0x80) * 0x40 + (b3 - 0x80)
          if 0x800 ≤ cp ∧ ¬(0xD800 ≤ cp ∧ cp < 0xE000) then
            (utf8DecodeList rest).map (fun cs => Char.ofNat cp :: cs)
          else Option.none
        else Option.none
      | _ => Option.none
    else if b < 0xF5 then
      match bs with
      | b2 :: b3 :: b4 :: rest =>
        if 0x80 ≤ b2 ∧ b2 < 0xC0 ∧ 0x80 ≤ b3 ∧ b3 < 0xC0 ∧ 0x80 ≤ b4 ∧ b4 < 0xC0 then
          let cp := (b - 0xF0) * 0x40000 + (b2 - 0x80) * 0x1000 + (b3 - 0x80) * 0x40 + (b4 - 0x80)
          if 0x10000 ≤ cp ∧ cp ≤ 0x10FFFF then
            (utf8DecodeList rest).map (fun cs => Char.ofNat cp :: cs)
          else Option.none
        else Option.none
      | _ => Option.none
    else Option.none

/-- `bytes.decode('utf-8')` (strict). -/
def utf8Decode (bytes : List Nat) : Option String :=
  (utf8DecodeList bytes).map (fun cs => String.mk cs)

/-- The transport-level outcome of the ingest stage of
`stream_agent_run`: an `HTTPException` with the given status, or a validated
request. -/
inductive IngestOutcome where
  | httpError (status : Nat)
  | ok (r : AgentRequest)

/-- Lines 83-110, after JSON decoding succeeded: unwrap an optional `input`
envelope, then validate.  A non-dict selected payload makes
`AgentRequest(**request_data)` raise `TypeError`, and — like the
`HTTPException(422)` raised for a pydantic `ValidationError` — that exception
is caught by the blanket `except Exception` (line 108), which re-raises as
`HTTPException(500)`; so both cases surface as status 500. -/
def ingestFromJson (body_json : PyVal) : IngestOutcome :=
  match body_json with
  | .dict fs =>
    let request_data := if hasKey fs "input" then dictGetD fs "input" .none else .dict fs
    match request_data with
    | .dict rfs =>
      match parseAgentRequest (.dict rfs) with
      | some r => .ok r
      | Option.none => .httpError 500
    | _ => .httpError 500
  | _ => .httpError 500

/-- Lines 66-110: the full ingest stage on the raw body bytes.  A UTF-8
decode failure (`UnicodeDecodeError`) is caught by the blanket
`except Exception` → 500; a JSON decode failure is caught by
`except json.JSONDecodeError` → 400. -/
def stream_agent_run_ingest (jsonLoads : String → Option PyVal) (body : List Nat) :
    IngestOutcome :=
  match utf8Decode body with
  | Option.none => .httpError 500
  | some s =>
    match jsonLoads s with
    | Option.none => .httpError 400
    | some bj => ingestFromJson bj

/-- The observable result of `stream_agent_run`: an HTTP error response
(no frame is ever written), or a started stream with its frames. -/
inductive HandlerResult where
  | httpError (status : Nat)
  | stream (frames : List String)

/-- Lines 61-185: the whole stream endpoint — ingest first, and only an
accepted request starts the frame-producing generator. -/
def stream_agent_run (jsonLoads : String → Option PyVal) (body : List Nat)
    (events : List PyVal) (fault : Option String) : HandlerResult :=
  match stream_agent_run_ingest jsonLoads body with
  | .httpError s => .httpError s
  | .ok r => .stream (generate_agent_stream r events fault)

/-! ## Theorems -/

theorem canonicalTR_dictResult (fs : List (String × PyVal)) (req : TradeExecutionRequest)
    (now : Int) : canonicalTR (dictResult fs req now) := by
  unfold canonicalTR dictResult
  split <;> simp

theorem canonicalTR_fallbackResult (req : TradeExecutionRequest) (now : Int) :
    canonicalTR (fallbackResult req now) := by
  unfold canonicalTR fallbackResult
  simp

/-- Claim C1: for every request, every backend result shape and every backend
fault, the `/execute-trade` response satisfies the canonical `TradeResult`
invariant — success responses carry `orderID`, `takingAmount`, `makingAmount`,
`status`, `transactionsHashes` (plus `message`, present in every response by
construction) and omit `errorMsg`; failure responses carry `errorMsg` (plus
`message`) and omit all success-only fields. -/
theorem execute_trade_canonical (jl : String → Option PyVal) (req : TradeExecutionRequest)
    (backend : BackendOutcome) (now : Int) :
    canonicalTR (execute_trade jl req backend now) := by
  cases backend with
  | fault e => unfold canonicalTR; simp [execute_trade]
  | ok result =>
    cases result with
    | none => simpa [execute_trade] using canonicalTR_fallbackResult req now
    | bool b => simpa [execute_trade] using canonicalTR_fallbackResult req now
    | int n => simpa [execute_trade] using canonicalTR_fallbackResult req now
    | float q => simpa [execute_trade] using canonicalTR_fallbackResult req now
    | list xs => simpa [execute_trade] using canonicalTR_fallbackResult req now
    | dict fs => simpa [execute_trade] using canonicalTR_dictResult fs req now
    | str s =>
      cases hstart : pyStartsWith s "mock_market_order_id_" with
      | true => unfold canonicalTR; simp [execute_trade, hstart]
      | false =>
        cases hjl : jl s with
        | none => unfold canonicalTR; simp [execute_trade, hstart, hjl]
        | some v =>
          cases v with
          | none => simpa [execute_trade, hstart, hjl] using canonicalTR_fallbackResult req now
          | bool b => simpa [execute_trade, hstart, hjl] using canonicalTR_fallbackResult req now
          | int n => simpa [execute_trade, hstart, hjl] using canonicalTR_fallbackResult req now
          | float q => simpa [execute_trade, hstart, hjl] using canonicalTR_fallbackResult req now
          | str s2 => simpa [execute_trade, hstart, hjl] using canonicalTR_fallbackResult req now
          | list xs => simpa [execute_trade, hstart, hjl] using canonicalTR_fallbackResult req now
          | dict fs => simpa [execute_trade, hstart, hjl] using canonicalTR_dictResult fs req now

/-- Witness for C1: at a concrete backend fault the response is a failure
carrying `errorMsg`. -/
theorem execute_trade_canonical_witness :
    (execute_trade (fun _ => Option.none) ⟨"m", "t", "BUY", "YES", 1, "r", 1⟩
      (.fault "boom") 0).errorMsg.isSome = true := by
  have h := execute_trade_canonical (fun _ => Option.none) ⟨"m", "t", "BUY", "YES", 1, "r", 1⟩
    (.fault "boom") 0
  exact (h.2 rfl).1

/-- Claim C2: a backend exception with message `m` yields
`\x7bsuccess: false, errorMsg: m, message: "Trade execution failed: " + m\x7d`, and the
handler returns it (the exception does not propagate — `execute_trade` is a
total function into `TradeResponse`). -/
theorem execute_trade_fault (jl : String → Option PyVal) (req : TradeExecutionRequest)
    (m : String) (now : Int) :
    execute_trade jl req (.fault m) now =
    { success := false
      orderID := Option.none
      takingAmount := Option.none
      makingAmount := Option.none
      status := Option.none
      transactionsHashes := Option.none
      errorMsg := some (.str m)
      message := "Trade execution failed: " ++ m } := rfl

theorem updatesEnvelope_ne_errorEnvelope (ev : PyVal) (m : String) :
    updatesEnvelope ev ≠ errorEnvelope m := by
  unfold updatesEnvelope errorEnvelope
  intro h
  simp at h

theorem errorEnvelope_not_mem_map (m : String) (evs : List PyVal) :
    errorEnvelope m ∉ evs.map updatesEnvelope := by
  intro h
  rcases List.mem_map.mp h with ⟨ev, _, heq⟩
  exact updatesEnvelope_ne_errorEnvelope ev m heq

/-- Claim C3: for every accepted request and every agent event sequence
(finite, or a finite prefix followed by a fault), the envelope sequence ends
in exactly one terminal condition — either it is only `updates` envelopes
with no `error` envelope, or it is `updates` envelopes followed by exactly one
final `error` envelope.  The generator is a total function, so a fault never
propagates out of it. -/
theorem agent_stream_terminal_shape (req : AgentRequest) (events : List PyVal)
    (fault : Option String) :
    (∃ evs : List PyVal, agentStreamEnvelopes req events fault = evs.map updatesEnvelope ∧
      ∀ m, errorEnvelope m ∉ evs.map updatesEnvelope) ∨
    (∃ (evs : List PyVal) (m : String), agentStreamEnvelopes req events fault =
        evs.map updatesEnvelope ++ [errorEnvelope m] ∧
      ∀ m2, errorEnvelope m2 ∉ evs.map updatesEnvelope) := by
  unfold agentStreamEnvelopes
  cases h : coerceTokens req.tokens with
  | error e =>
    right
    exact ⟨[], e, by simp, fun m2 => by simp⟩
  | ok ts =>
    cases fault with
    | none => exact Or.inl ⟨events, rfl, fun m => errorEnvelope_not_mem_map m events⟩
    | some m => exact Or.inr ⟨events, m, rfl, fun m2 => errorEnvelope_not_mem_map m2 events⟩

/-- Witness for C3 at a concrete request and event sequence. -/
theorem agent_stream_terminal_shape_witness :
    (∃ evs : List PyVal, agentStreamEnvelopes ⟨"m", [], true⟩ [PyVal.int 1] Option.none =
        evs.map updatesEnvelope ∧ ∀ m, errorEnvelope m ∉ evs.map updatesEnvelope) ∨
    (∃ (evs : List PyVal) (m : String),
        agentStreamEnvelopes ⟨"m", [], true⟩ [PyVal.int 1] Option.none =
        evs.map updatesEnvelope ++ [errorEnvelope m] ∧
      ∀ m2, errorEnvelope m2 ∉ evs.map updatesEnvelope) :=
  agent_stream_terminal_shape ⟨"m", [], true⟩ [PyVal.int 1] Option.none

/-- Counterexample to C4 as stated: the inner payload
`\x7bmarket_id: "m", tokens: [], input: 5\x7d` validates as a `RunRequest`
(extra fields are ignored), but parsing it as a raw body hits the envelope
unwrapping (`input` is present), hands `5` to `AgentRequest(**...)` and dies
with a 500, while the wrapped body `\x7binput: P\x7d` parses successfully — the two
parses are not identical. -/
theorem envelope_equiv_cex :
    parseAgentRequest
      (.dict [("market_id", .str "m"), ("tokens", .list []), ("input", .int 5)]) =
      some ⟨"m", [], true⟩ ∧
    ingestFromJson
      (.dict [("market_id", .str "m"), ("tokens", .list []), ("input", .int 5)]) =
      .httpError 500 ∧
    ingestFromJson
      (.dict [("input", .dict [("market_id", .str "m"), ("tokens", .list []), ("input", .int 5)])]) =
      .ok ⟨"m", [], true⟩ :=
  ⟨rfl, rfl, rfl⟩

/-- Claim C4, amended: for every inner payload `P` that validates as a
`RunRequest` and does not itself contain a top-level `input` key, parsing the
raw body `P` and parsing the wrapped body `\x7binput: P\x7d` produce identical
`RunRequest` values. -/
theorem envelope_equiv_amended (fs : List (String × PyVal)) (r : AgentRequest)
    (hr : parseAgentRequest (.dict fs) = some r) (hin : hasKey fs "input" = false) :
    ingestFromJson (.dict fs) = .ok r ∧
    ingestFromJson (.dict [("input", .dict fs)]) = .ok r := by
  constructor
  · simp [ingestFromJson, hin, hr]
  · simp [ingestFromJson, hasKey, dictFind, dictGetD, hr]

/-- Witness for the amended C4 at a concrete payload. -/
theorem envelope_equiv_amended_witness :
    ingestFromJson (.dict [("market_id", .str "m"), ("tokens", .list [])]) =
      .ok ⟨"m", [], true⟩ ∧
    ingestFromJson (.dict [("input", .dict [("market_id", .str "m"), ("tokens", .list [])])]) =
      .ok ⟨"m", [], true⟩ :=
  envelope_equiv_amended [("market_id", .str "m"), ("tokens", .list [])] ⟨"m", [], true⟩ rfl rfl

/-- Claim C5: a backend string result starting with `mock_market_order_id_`
(such as `mock_market_order_id_42`) yields the mock success response with that
string as `orderID`, `takingAmount = str(req.size)`, `makingAmount = "0"`,
`status = "mock_execution"` and empty `transactionsHashes`. -/
theorem execute_trade_mock (jl : String → Option PyVal) (req : TradeExecutionRequest)
    (s : String) (now : Int) (h : pyStartsWith s "mock_market_order_id_" = true) :
    execute_trade jl req (.ok (.str s)) now =
    { success := true
      orderID := some (.str s)
      takingAmount := some (pyFloatStr req.size)
      makingAmount := some "0"
      status := some (.str "mock_execution")
      transactionsHashes := some (.list [])
      errorMsg := Option.none
      message := "Trade executed successfully (mock mode)" } := by
  simp [execute_trade, h]

/-- Witness for C5 at the concrete backend result `"mock_market_order_id_42"`. -/
theorem execute_trade_mock_witness :
    pyStartsWith "mock_market_order_id_42" "mock_market_order_id_" = true ∧
    execute_trade (fun _ => Option.none) ⟨"m", "t", "BUY", "YES", 1, "r", 1⟩
      (.ok (.str "mock_market_order_id_42")) 0 =
    { success := true
      orderID := some (.str "mock_market_order_id_42")
      takingAmount := some (pyFloatStr 1)
      makingAmount := some "0"
      status := some (.str "mock_execution")
      transactionsHashes := some (.list [])
      errorMsg := Option.none
      message := "Trade executed successfully (mock mode)" } :=
  ⟨by decide, execute_trade_mock (fun _ => Option.none) ⟨"m", "t", "BUY", "YES", 1, "r", 1⟩
    "mock_market_order_id_42" 0 (by decide)⟩

/-- Claim C6: a backend dict `\x7borderID: "abc123", takingAmount: 5.0\x7d` with no
`success` field is treated as success (permissive default) and yields
`orderID = "abc123"`, `takingAmount = "5.0"`, `makingAmount = "0"`,
`status = "completed"`, empty `transactionsHashes`. -/
theorem execute_trade_dict_default_success (jl : String → Option PyVal)
    (req : TradeExecutionRequest) (now : Int) :
    execute_trade jl req (.ok (.dict [("orderID", .str "abc123"), ("takingAmount", .float 5)])) now =
    { success := true
      orderID := some (.str "abc123")
      takingAmount := some "5.0"
      makingAmount := some "0"
      status := some (.str "completed")
      transactionsHashes := some (.list [])
      errorMsg := Option.none
      message := "Trade executed successfully" } := rfl

/-- Counterexample to C7 as stated: a token object whose `price` is `None`
(present but not convertible) makes the coercion raise a `TypeError` inside
`float(...)` — it does not default to `0.0`, so the coercion is not
raise-free. -/
theorem token_coerce_cex :
    coerceToken (.dict [("price", PyVal.none)]) =
      .error "TypeError: float() argument must be a string or a real number" := rfl

/-- Claim C7, amended: missing `token_id` and `outcome` default to `""` and a
missing `price` defaults to `0.0` without raising (whenever the fields that
are present have the right types); but a present, non-convertible `price`
raises instead of defaulting. -/
theorem token_coerce_amended (fs : List (String × PyVal)) (a b : String)
    (h1 : dictGetD fs "token_id" (.str "") = .str a)
    (h2 : dictGetD fs "outcome" (.str "") = .str b)
    (h3 : dictFind fs "price" = Option.none) :
    coerceToken (.dict fs) = .ok ⟨a, b, 0⟩ := by
  simp [coerceToken, dictGetD, h3] at h1 h2 ⊢
  simp [h1, h2, pyFloat, TokenMk]

/-- Witness for the amended C7: the empty token object coerces to the fully
defaulted token. -/
theorem token_coerce_amended_witness :
    coerceToken (.dict []) = .ok ⟨"", "", 0⟩ :=
  token_coerce_amended [] "" "" rfl rfl rfl

/-- Counterexample to C8 as stated: the body `[0xFF]` is not valid UTF-8; the
`UnicodeDecodeError` is caught by the blanket `except Exception` handler, so
the request is rejected with HTTP 500 — not a 400-class status. -/
theorem ingest_utf8_cex :
    utf8Decode [255] = Option.none ∧
    stream_agent_run (fun _ => some PyVal.none) [255] [] Option.none = .httpError 500 ∧
    ¬(400 ≤ (500 : Nat) ∧ (500 : Nat) ≤ 499) :=
  ⟨rfl, rfl, by decide⟩

/-- Claim C8, amended: a decode failure always rejects the request before any
frame is produced (the handler returns an `httpError`, never a stream), but
the statuses differ — JSON decode failure maps to 400
(`except json.JSONDecodeError`), while UTF-8 decode failure falls into the
blanket `except Exception` and maps to 500. -/
theorem ingest_decode_amended (jl : String → Option PyVal) (body : List Nat)
    (events : List PyVal) (fault : Option String) :
    (utf8Decode body = Option.none →
      stream_agent_run jl body events fault = .httpError 500) ∧
    (∀ s, utf8Decode body = some s → jl s = Option.none →
      stream_agent_run jl body events fault = .httpError 400) := by
  constructor
  · intro h
    simp [stream_agent_run, stream_agent_run_ingest, h]
  · intro s h1 h2
    simp [stream_agent_run, stream_agent_run_ingest, h1, h2]

/-- Witness for the amended C8: a well-formed UTF-8 body whose JSON parse
fails is rejected with 400. -/
theorem ingest_decode_amended_witness :
    stream_agent_run (fun _ => Option.none) [104] [] Option.none = .httpError 400 := by
  have h := ingest_decode_amended (fun _ => Option.none) [104] [] Option.none
  exact h.2 "h" rfl rfl

/-- Claim C9: every frame written to the stream is exactly the bytes
`data: ` followed by the JSON encoding of its `StreamEnvelope` followed by two
newline characters. -/
theorem frame_format (req : AgentRequest) (events : List PyVal) (fault : Option String)
    (f : String) (hf : f ∈ generate_agent_stream req events fault) :
    ∃ env ∈ agentStreamEnvelopes req events fault,
      f = "data: " ++ pyJsonDumps env ++ "\n\n" := by
  unfold generate_agent_stream at hf
  rcases List.mem_map.mp hf with ⟨env, henv, rfl⟩
  exact ⟨env, henv, rfl⟩

/-- Witness for C9 at a concrete one-event stream. -/
theorem frame_format_witness :
    ∃ env ∈ agentStreamEnvelopes ⟨"m", [], true⟩ [PyVal.int 1] Option.none,
      sseFrame (updatesEnvelope (PyVal.int 1)) = "data: " ++ pyJsonDumps env ++ "\n\n" := by
  apply frame_format ⟨"m", [], true⟩ [PyVal.int 1] Option.none
  have h : generate_agent_stream ⟨"m", [], true⟩ [PyVal.int 1] Option.none =
      [sseFrame (updatesEnvelope (PyVal.int 1))] := rfl
  rw [h]
  exact List.mem_singleton.mpr rfl

/-- Claim C10: a backend string result that is not a mock order id and parses
as JSON to a non-dict value is NOT used as the order id: the handler falls
through to the generic success fallback with `orderID = "order_" + str(int(time.time()))`. -/
theorem execute_trade_nondict_json_fallback (jl : String → Option PyVal)
    (req : TradeExecutionRequest) (s : String) (now : Int) (v : PyVal)
    (h1 : pyStartsWith s "mock_market_order_id_" = false)
    (h2 : jl s = some v) (h3 : isDict v = false) :
    execute_trade jl req (.ok (.str s)) now =
    { success := true
      orderID := some (.str ("order_" ++ toString now))
      takingAmount := some (pyFloatStr req.size)
      makingAmount := some "0"
      status := some (.str "completed")
      transactionsHashes := some (.list [])
      errorMsg := Option.none
      message := "Trade executed successfully" } := by
  cases v with
  | dict fs => simp [isDict] at h3
  | none => simp [execute_trade, h1, h2, fallbackResult]
  | bool b => simp [execute_trade, h1, h2, fallbackResult]
  | int n => simp [execute_trade, h1, h2, fallbackResult]
  | float q => simp [execute_trade, h1, h2, fallbackResult]
  | str s2 => simp [execute_trade, h1, h2, fallbackResult]
  | list xs => simp [execute_trade, h1, h2, fallbackResult]

/-- Witness for C10: the backend returns the string `"42"`, which parses as
the JSON number `42`. -/
theorem execute_trade_nondict_json_fallback_witness :
    pyStartsWith "42" "mock_market_order_id_" = false ∧
    isDict (PyVal.int 42) = false ∧
    execute_trade (fun _ => some (PyVal.int 42)) ⟨"m", "t", "BUY", "YES", 1, "r", 1⟩
      (.ok (.str "42")) 7 =
    { success := true
      orderID := some (.str ("order_" ++ toString (7 : Int)))
      takingAmount := some (pyFloatStr 1)
      makingAmount := some "0"
      status := some (.str "completed")
      transactionsHashes := some (.list [])
      errorMsg := Option.none
      message := "Trade executed successfully" } :=
  ⟨by decide, rfl,
    execute_trade_nondict_json_fallback (fun _ => some (PyVal.int 42))
      ⟨"m", "t", "BUY", "YES", 1, "r", 1⟩ "42" 7 (PyVal.int 42) (by decide) rfl rfl⟩

end SimpleServer
